import Mathlib

namespace RayTracer

/-- Error categories from `ErrorCategory` in error-handler.service.ts. -/
inductive ErrorCategory where
  | NETWORK | WALLET | TRANSACTION | SLIPPAGE | LIQUIDITY
  | VALIDATION | RAYDIUM | TOKEN | RPC | CONFIGURATION | UNKNOWN
  deriving DecidableEq, Repr

/-- Error severities from `ErrorSeverity` in error-handler.service.ts. -/
inductive ErrorSeverity where
  | LOW | MEDIUM | HIGH | CRITICAL
  deriving DecidableEq, Repr

/-- Does the first character list start the second one? -/
def leadsWith : List Char → List Char → Bool
  | [], _ => true
  | _ :: _, [] => false
  | a :: as, b :: bs => a == b && leadsWith as bs

/-- Does the first character list occur contiguously inside the second? -/
def occursWithin (pat : List Char) : List Char → Bool
  | [] => leadsWith pat []
  | l@(_ :: rest) => leadsWith pat l || occursWithin pat rest

/-- Model of `message.includes(pattern)` on JS strings, as list-of-char infix test. -/
def strIncludes (message pattern : String) : Bool :=
  occursWithin pattern.toList message.toList

/-- Model of `matchesPattern` from error-handler.service.ts: does the message
contain any of the patterns? -/
def matchesPattern (message : String) (patterns : List String) : Bool :=
  patterns.any (fun p => strIncludes message p)

/-- ASCII lowercasing of a character (the messages classified by the
service are ASCII, so this models JS `toLowerCase`). -/
def charToLower (c : Char) : Char :=
  if 'A' ≤ c ∧ c ≤ 'Z' then Char.ofNat (c.toNat + 32) else c

/-- Model of `String.prototype.toLowerCase` over ASCII message text. -/
def strToLower (s : String) : String :=
  String.mk (s.toList.map charToLower)

/-- Structured error information, `ErrorInfo` from error-handler.service.ts.
`technicalDetails` is optional there, hence `Option`. -/
structure ErrorInfo where
  category : ErrorCategory
  severity : ErrorSeverity
  message : String
  suggestion : String
  retryable : Bool
  technicalDetails : Option String
  deriving DecidableEq, Repr

/-- The shapes of raw JS values reaching `extractErrorMessage`: a plain
string, an `Error` instance, an object with `InstructionError` (its JSON
rendering as a string), an RPC-style object with `code` and `message`, an
object with `cause.message`, any other object (its `JSON.stringify`
rendering), or `null`/`undefined`. -/
inductive RawError where
  | str (s : String)
  | errObj (message : String)
  | objInstructionError (detail : String)
  | objRpc (code : Int) (message : String)
  | objCause (causeMessage : String)
  | objOther (json : String)
  | nullish
  deriving DecidableEq, Repr

/-- Model of `extractErrorMessage` from error-handler.service.ts. -/
def extractErrorMessage : RawError → String
  | .str s => s
  | .errObj message => message
  | .objInstructionError detail => "Instruction error: " ++ detail
  | .objRpc code message => "RPC Error " ++ toString code ++ ": " ++ message
  | .objCause causeMessage => causeMessage
  | .objOther json => json
  | .nullish => "Unknown error occurred"

/-- Model of `categorizeError` from error-handler.service.ts: first matching
pattern group wins, in source order. -/
def categorizeError (errorMessage : String) : ErrorCategory :=
  let lowerMessage := strToLower errorMessage
  if matchesPattern lowerMessage ["network", "timeout", "connection", "econnreset",
      "enotfound", "fetch", "429", "rate limit", "service unavailable"] then
    .NETWORK
  else if matchesPattern lowerMessage ["rpc", "node", "endpoint", "blockhash",
      "slot", "commitment"] then
    .RPC
  else if matchesPattern lowerMessage ["insufficient funds", "balance",
      "account not found", "private key", "keypair", "signature", "unauthorized"] then
    .WALLET
  else if matchesPattern lowerMessage ["transaction", "instruction",
      "simulation failed", "compute", "program error", "account in use",
      "blockhash expired"] then
    .TRANSACTION
  else if matchesPattern lowerMessage ["slippage", "price", "tolerance",
      "minimum", "maximum", "amount"] then
    .SLIPPAGE
  else if matchesPattern lowerMessage ["liquidity", "pool", "reserves",
      "lp token", "swap", "amm"] then
    .LIQUIDITY
  else if matchesPattern lowerMessage ["raydium", "pool info", "pool keys",
      "market", "openbook"] then
    .RAYDIUM
  else if matchesPattern lowerMessage ["token", "mint", "decimals", "spl",
      "associated token account"] then
    .TOKEN
  else if matchesPattern lowerMessage ["invalid", "validation", "format",
      "required", "missing", "expected"] then
    .VALIDATION
  else if matchesPattern lowerMessage ["environment", "config", "api key",
      "url", "setting"] then
    .CONFIGURATION
  else
    .UNKNOWN

/-- Model of `determineSeverity` from error-handler.service.ts. -/
def determineSeverity (category : ErrorCategory) (message : String) : ErrorSeverity :=
  let lowerMessage := strToLower message
  if category = .CONFIGURATION || strIncludes lowerMessage "private key" ||
      strIncludes lowerMessage "critical" then
    .CRITICAL
  else if (category = .WALLET && strIncludes lowerMessage "insufficient") ||
      (category = .TRANSACTION && strIncludes lowerMessage "failed") ||
      strIncludes lowerMessage "unauthorized" then
    .HIGH
  else if category = .SLIPPAGE || category = .LIQUIDITY || category = .RPC then
    .MEDIUM
  else
    .LOW

/-- Model of `getErrorInfo` from error-handler.service.ts: the per-category switch
that fixes message, suggestion, severity and retryability. -/
def getErrorInfo (category : ErrorCategory) (message : String) : ErrorInfo :=
  let lowerMessage := strToLower message
  match category with
  | .NETWORK =>
    { category := .NETWORK, severity := determineSeverity .NETWORK message,
      message := "Network connection issue",
      suggestion := "Check internet connection, try different RPC endpoint, or wait and retry",
      retryable := true, technicalDetails := some message }
  | .RPC =>
    { category := .RPC, severity := determineSeverity .RPC message,
      message := "RPC endpoint error",
      suggestion := "Verify Helius API key, check RPC URL, or try different commitment level",
      retryable := true, technicalDetails := some message }
  | .WALLET =>
    if strIncludes lowerMessage "insufficient" then
      { category := .WALLET, severity := .HIGH,
        message := "Insufficient balance in wallet",
        suggestion := "Add more SOL to wallet or reduce transaction amount. Keep ~0.01 SOL for fees",
        retryable := false, technicalDetails := some message }
    else
      { category := .WALLET, severity := determineSeverity .WALLET message,
        message := "Wallet authentication or access error",
        suggestion := "Check private key format, wallet permissions, or account status",
        retryable := false, technicalDetails := some message }
  | .SLIPPAGE =>
    { category := .SLIPPAGE, severity := .MEDIUM,
      message := "Transaction failed due to price movement",
      suggestion := "Increase slippage tolerance (--slippage 1.0) or try during stable market conditions",
      retryable := true, technicalDetails := some message }
  | .TRANSACTION =>
    if strIncludes lowerMessage "simulation" then
      { category := .TRANSACTION, severity := .HIGH,
        message := "Transaction simulation failed",
        suggestion := "Check wallet balance, slippage settings, or pool availability",
        retryable := true, technicalDetails := some message }
    else
      { category := .TRANSACTION, severity := determineSeverity .TRANSACTION message,
        message := "Transaction execution error",
        suggestion := "Retry with higher priority fee or different parameters",
        retryable := true, technicalDetails := some message }
  | .LIQUIDITY =>
    { category := .LIQUIDITY, severity := .MEDIUM,
      message := "Liquidity pool operation failed",
      suggestion := "Check pool health, verify pool ID, or try smaller amounts",
      retryable := true, technicalDetails := some message }
  | .RAYDIUM =>
    { category := .RAYDIUM, severity := .MEDIUM,
      message := "Raydium protocol error",
      suggestion := "Verify pool exists and is active, check Raydium API status",
      retryable := true, technicalDetails := some message }
  | .TOKEN =>
    { category := .TOKEN, severity := .MEDIUM,
      message := "Token operation failed",
      suggestion := "Check token accounts exist, verify mint addresses, or create associated accounts",
      retryable := true, technicalDetails := some message }
  | .VALIDATION =>
    { category := .VALIDATION, severity := .LOW,
      message := "Input validation failed",
      suggestion := "Check command parameters, format, and ranges",
      retryable := false, technicalDetails := some message }
  | .CONFIGURATION =>
    { category := .CONFIGURATION, severity := .CRITICAL,
      message := "Configuration error",
      suggestion := "Check .env file settings, API keys, and environment variables",
      retryable := false, technicalDetails := some message }
  | .UNKNOWN =>
    { category := .UNKNOWN, severity := .LOW,
      message := "An unexpected error occurred",
      suggestion := "Enable verbose logging (--verbose) for more details or contact support",
      retryable := true, technicalDetails := some message }

/-- Model of `handleError` from error-handler.service.ts: extract a message,
categorize it, and build the structured info (logging omitted; the
severity computed on line 59 is discarded there and recomputed inside
`getErrorInfo`). -/
def handleError (error : RawError) : ErrorInfo :=
  let errorString := extractErrorMessage error
  let category := categorizeError errorString
  getErrorInfo category errorString

/-- Model of `shouldRetry` from error-handler.service.ts. -/
def shouldRetry (errorInfo : ErrorInfo) (attempt maxRetries : Nat) : Bool :=
  if attempt ≥ maxRetries then false
  else if !errorInfo.retryable then false
  else if errorInfo.severity = .CRITICAL then false
  else if errorInfo.category = .VALIDATION then false
  else true

/-! ### Transaction service (transaction.service.ts) -/

/-- Opaque on-chain transaction error payload (`result.value.err` /
`confirmation.value.err`), kept abstract as its JSON text. -/
structure TxErr where
  detail : String
  deriving DecidableEq, Repr

/-- Behavior of `connection.simulateTransaction` for one call: the RPC
either raises (transport error) or resolves with an optional execution
error, logs, and units consumed. -/
inductive SimBehavior where
  | raise (e : String)
  | ret (err : Option TxErr) (logs : List String) (unitsConsumed : Option Nat)
  deriving DecidableEq, Repr

/-- Behavior of `connection.sendTransaction`/`sendRawTransaction` for one
call: raise, or resolve with a signature. -/
inductive SendBehavior where
  | raise (e : String)
  | ret (signature : String)
  deriving DecidableEq, Repr

/-- Behavior of the confirmation step (`getLatestBlockhash` +
`connection.confirmTransaction`) for one call: raise (transport failure or
blockhash-expiry timeout rejection), or resolve with
`confirmation.value.err` — `some` when the transaction landed but failed. -/
inductive ConfirmBehavior where
  | raise (e : String)
  | ret (err : Option TxErr)
  deriving DecidableEq, Repr

/-- Result record of `simulateTransaction` in transaction.service.ts. -/
structure SimResult where
  success : Bool
  error : Option String
  logs : Option (List String)
  deriving DecidableEq, Repr

/-- Model of `parseTransactionError` is only applied to a landed error here; we
keep its output abstract as a rendering of the raw detail. -/
def parseTransactionError (err : TxErr) : String :=
  err.detail

/-- Model of `simulateTransaction` from transaction.service.ts: catches any raised
transport error and reports it as `success := false`. -/
def simulateTransaction (rpc : SimBehavior) : SimResult :=
  match rpc with
  | .raise e =>
    { success := false, error := some ("Simulation failed: " ++ e), logs := none }
  | .ret (some err) logs _ =>
    { success := false, error := some (parseTransactionError err), logs := some logs }
  | .ret none logs _ =>
    { success := true, error := none, logs := some logs }

/-- Model of `confirmTransaction` from transaction.service.ts: returns
`!confirmation.value.err`, and `false` when the await raised. A
landed-but-failed confirmation (`err = some _`) therefore yields the same
`false` as a timeout. -/
def confirmTransaction (rpc : ConfirmBehavior) : Bool :=
  match rpc with
  | .raise _ => false
  | .ret err => err.isNone

/-- Model of `getSignatureStatus` response for `getTransactionStatus`: raise, or
resolve with `status.value` either `null` or a record whose fields are
each nullable. -/
structure SignatureStatusValue where
  slot : Option Nat
  confirmations : Option Nat
  err : Option TxErr
  confirmationStatus : Option String
  deriving DecidableEq, Repr

/-- Behavior of `connection.getSignatureStatus` for one call. -/
inductive StatusBehavior where
  | raise (e : String)
  | ret (value : Option SignatureStatusValue)
  deriving DecidableEq, Repr

/-- Result record of `getTransactionStatus` in transaction.service.ts. -/
structure TxStatus where
  confirmed : Bool
  slot : Option Nat
  err : Option TxErr
  confirmations : Option Nat
  deriving DecidableEq, Repr

/-- Model of `getTransactionStatus` from transaction.service.ts: total over every
RPC behavior; `confirmed` is set exactly when the reported
`confirmationStatus` is `confirmed` or `finalized`, and any raise or
missing value yields `confirmed := false`. -/
def getTransactionStatus (rpc : StatusBehavior) : TxStatus :=
  match rpc with
  | .raise _ => { confirmed := false, slot := none, err := none, confirmations := none }
  | .ret none => { confirmed := false, slot := none, err := none, confirmations := none }
  | .ret (some v) =>
    { confirmed := v.confirmationStatus = some "confirmed" ||
        v.confirmationStatus = some "finalized",
      slot := v.slot, err := v.err, confirmations := v.confirmations }

/-- Model of `calculateRetryDelay` from transaction.service.ts, with the
`Math.random() * 1000` jitter draw made an explicit argument:
`min(base * 2^(attempt-1) + jitter, 30000)`. -/
def calculateRetryDelay (attempt : Nat) (baseDelay jitter : ℚ) : ℚ :=
  let exponentialDelay := baseDelay * 2 ^ (attempt - 1)
  let maxDelay : ℚ := 30000
  min (exponentialDelay + jitter) maxDelay

/-- Per-call options of `sendAndConfirmTransaction` (the fields the
control flow reads). -/
structure TxSendOptions where
  skipPreflight : Bool := false
  maxRetries : Option Nat := none
  skipConfirmation : Bool := false
  deriving DecidableEq, Repr

/-- The environment one attempt of `sendAndConfirmTransaction` runs
against: the behavior of the simulation, send, and confirmation RPC calls
made during that attempt. -/
structure AttemptEnv where
  sim : SimBehavior
  send : SendBehavior
  confirm : ConfirmBehavior
  deriving DecidableEq, Repr

/-- Outcome of one attempt body of `sendAndConfirmTransaction`: `sent`
records whether `sendTransaction` resolved with a signature during the
attempt (a network submission happened). -/
structure AttemptOutcome where
  sent : Bool
  result : Except String String
  deriving Repr

/-- One iteration of the retry loop in `sendAndConfirmTransaction`:
simulate unless `skipPreflight` (a failed simulation throws), send,
return success early when `skipConfirmation`, otherwise confirm and throw
when confirmation came back `false`. -/
def attemptOnce (options : TxSendOptions) (envA : AttemptEnv) : AttemptOutcome :=
  let simCheck : Option String :=
    if options.skipPreflight then none
    else
      let simulationResult := simulateTransaction envA.sim
      if simulationResult.success then none
      else some ("Simulation failed: " ++ (simulationResult.error.getD ""))
  match simCheck with
  | some msg => { sent := false, result := .error msg }
  | none =>
    match envA.send with
    | .raise e => { sent := false, result := .error e }
    | .ret signature =>
      if options.skipConfirmation then
        { sent := true, result := .ok signature }
      else if confirmTransaction envA.confirm then
        { sent := true, result := .ok signature }
      else
        { sent := true, result := .error "Transaction failed to confirm within timeout" }

/-- Terminal result of a `sendAndConfirmTransaction` run, instrumented
with the attempt count and the number of network submissions performed. -/
structure RunResult where
  success : Bool
  signature : Option String
  error : Option String
  attemptsUsed : Nat
  sends : Nat
  deriving DecidableEq, Repr

/-- The retry loop of `sendAndConfirmTransaction` over the per-attempt
environments `envs` (one entry per remaining loop iteration): stop with
success on the first attempt that returns, otherwise record the error and
continue; exhausting the list reproduces the final failure return. -/
def runAttempts (options : TxSendOptions) (maxRetries : Nat) :
    List AttemptEnv → Nat → Nat → Option String → RunResult
  | [], attemptsDone, sends, lastError =>
    { success := false, signature := none,
      error := some ("Transaction failed after " ++ toString maxRetries ++
        " attempts: " ++ lastError.getD ""),
      attemptsUsed := attemptsDone, sends := sends }
  | envA :: rest, attemptsDone, sends, _ =>
    let outcome := attemptOnce options envA
    let sends' := sends + (if outcome.sent then 1 else 0)
    match outcome.result with
    | .ok signature =>
      { success := true, signature := some signature, error := none,
        attemptsUsed := attemptsDone + 1, sends := sends' }
    | .error msg =>
      runAttempts options maxRetries rest (attemptsDone + 1) sends' (some msg)

/-- Model of `env.maxRetries` default (`DEFAULT_CONFIG.MAX_RETRIES` in
constants.ts). -/
def envMaxRetries : Nat := 3

/-- Model of `options.maxRetries || env.maxRetries`: JS `||` falls back on the
falsy `0` as well as on `undefined`. -/
def effectiveMaxRetries (options : TxSendOptions) : Nat :=
  match options.maxRetries with
  | some n => if n = 0 then envMaxRetries else n
  | none => envMaxRetries

/-- Model of `sendAndConfirmTransaction` from transaction.service.ts, run against
an oracle giving each attempt's RPC behaviors: the loop body executes for
`attempt = 1 .. maxRetries`. -/
def sendAndConfirmTransaction (oracle : Nat → AttemptEnv) (options : TxSendOptions) :
    RunResult :=
  let maxRetries := effectiveMaxRetries options
  runAttempts options maxRetries ((List.range maxRetries).map (fun k => oracle (k + 1)))
    0 0 none

/-! ### Pool-data cache (raydium.service.ts, services version) -/

/-- Model of `PoolInfo` from types/index.ts, with public keys as strings and the
numeric fields as rationals. -/
structure PoolInfo where
  poolId : String
  tokenA : String
  tokenB : String
  lpToken : String
  priceTokenA : ℚ
  priceTokenB : ℚ
  liquidityTokenA : ℚ
  liquidityTokenB : ℚ
  liquidityTotal : ℚ
  volume24h : ℚ
  deriving DecidableEq, Repr

/-- Model of `poolDataCache` field of `RaydiumService`: the cached pool data (or
`null`) and the time it was stored. -/
structure PoolDataCache where
  data : Option PoolInfo
  timestamp : ℤ
  deriving DecidableEq, Repr

/-- Model of `CACHE_DURATION_MS` from raydium.service.ts. -/
def CACHE_DURATION_MS : ℤ := 30000

/-- What one `getPoolInfo` call produced: its result, the cache state it
left behind, and whether `fetchFromDirectRPC` (the loader) ran. -/
structure PoolInfoCall where
  result : Except String PoolInfo
  cache : PoolDataCache
  loaderInvoked : Bool
  deriving Repr

/-- Model of `getPoolInfo` from raydium.service.ts (services version): return the
cached value when `data` is set and `now - timestamp < CACHE_DURATION_MS`,
otherwise run the loader, store a fresh entry on success, and wrap a
loader failure into the thrown message (cache unchanged). -/
def getPoolInfo (cache : PoolDataCache) (now : ℤ)
    (fetchFromDirectRPC : Except String PoolInfo) : PoolInfoCall :=
  match cache.data with
  | some cached =>
    if now - cache.timestamp < CACHE_DURATION_MS then
      { result := .ok cached, cache := cache, loaderInvoked := false }
    else
      getPoolInfoFetch cache now fetchFromDirectRPC
  | none => getPoolInfoFetch cache now fetchFromDirectRPC
where
  /-- The fetch path of `getPoolInfo`. -/
  getPoolInfoFetch (cache : PoolDataCache) (now : ℤ)
      (fetchFromDirectRPC : Except String PoolInfo) : PoolInfoCall :=
    match fetchFromDirectRPC with
    | .ok poolInfo =>
      { result := .ok poolInfo, cache := { data := some poolInfo, timestamp := now },
        loaderInvoked := true }
    | .error e =>
      { result := .error ("Failed to fetch real pool data: " ++ e), cache := cache,
        loaderInvoked := true }

/-- The two concurrent callers of the interleaving model. -/
inductive CallerId where
  | A | B
  deriving DecidableEq, Repr

/-- Where a caller of `getPoolInfo` stands: before its cache check, after
a miss with its own load in flight (between the cache read and the cache
write there is an `await`, a real suspension point of the async code), or
finished (`fromCache` tells whether it was served from the cache). -/
inductive CallerPhase where
  | start
  | loading
  | finished (fromCache : Bool)
  deriving DecidableEq, Repr

/-- Interleaving state of two concurrent `getPoolInfo` calls sharing the
one `poolDataCache`, counting loader invocations. -/
structure ConcurrentState where
  cache : PoolDataCache
  phaseA : CallerPhase
  phaseB : CallerPhase
  loaderCalls : Nat
  deriving DecidableEq, Repr

/-- Read one caller's phase. -/
def ConcurrentState.phase (s : ConcurrentState) : CallerId → CallerPhase
  | .A => s.phaseA
  | .B => s.phaseB

/-- Replace one caller's phase. -/
def ConcurrentState.setPhase (s : ConcurrentState) : CallerId → CallerPhase → ConcurrentState
  | .A, p => { s with phaseA := p }
  | .B, p => { s with phaseB := p }

/-- One scheduler step of the interleaving model: run the next segment of
caller `c`'s `getPoolInfo` body. At `start` the caller performs the cache
check of lines 61–65; on a live entry it finishes from cache, otherwise it
invokes the loader and suspends. At `loading` the awaited
`fetchFromDirectRPC` resolves with `v` and line 72 stores it. -/
def concStep (now : ℤ) (v : PoolInfo) (s : ConcurrentState) (c : CallerId) :
    ConcurrentState :=
  match s.phase c with
  | .start =>
    match s.cache.data with
    | some _ =>
      if now - s.cache.timestamp < CACHE_DURATION_MS then
        s.setPhase c (.finished true)
      else
        { s.setPhase c .loading with loaderCalls := s.loaderCalls + 1 }
    | none =>
      { s.setPhase c .loading with loaderCalls := s.loaderCalls + 1 }
  | .loading =>
    { s.setPhase c (.finished false) with cache := { data := some v, timestamp := now } }
  | .finished _ => s

/-- Run the interleaving model under a schedule (the list of caller ids
picked at each step). -/
def concRun (now : ℤ) (v : PoolInfo) (schedule : List CallerId)
    (s : ConcurrentState) : ConcurrentState :=
  match schedule with
  | [] => s
  | c :: rest => concRun now v rest (concStep now v s c)

/-- A concrete pool value for concrete runs. -/
def samplePoolInfo : PoolInfo :=
  { poolId := "2fEchrUvYiZBdt2fWnKMvrRCcKRkDBpFrCjSgCcJbbLQ",
    tokenA := "BByRYGw5yrSQpPXFYoy7euzwtxwkbKz8JpQwz9sgpump",
    tokenB := "So11111111111111111111111111111111111111112",
    lpToken := "So11111111111111111111111111111111111111112",
    priceTokenA := 1234 / 1000000, priceTokenB := 1,
    liquidityTokenA := 1000000, liquidityTokenB := 1234,
    liquidityTotal := 1234, volume24h := 5678 }

/-- The empty-cache state both callers start from. -/
def concInit : ConcurrentState :=
  { cache := { data := none, timestamp := 0 }, phaseA := .start, phaseB := .start,
    loaderCalls := 0 }

/-! ### Withdrawal flow (raydium.service.ts, SDK version) -/

/-- Model of `LiquidityPosition` from types/index.ts (SDK version fields). -/
structure LiquidityPosition where
  lpTokenBalance : ℚ
  valueUSD : ℚ
  tokenAAmount : ℚ
  tokenBAmount : ℚ
  share : ℚ
  impermanentLoss : ℚ
  feesEarned : ℚ
  deriving DecidableEq, Repr

/-- The argument record `withdrawLiquidity` passes to
`raydium.liquidity.removeLiquidity` (the `BN` amounts, as integers). -/
structure RemoveLiquidityParams where
  lpAmount : ℤ
  baseAmountMin : ℤ
  quoteAmountMin : ℤ
  deriving DecidableEq, Repr

/-- The `removeLiquidity` argument construction on lines 364–370 of
raydium.service.ts: `lpAmount := new BN(lpTokenBalance * 10^6)` (BN
truncates), `baseAmountMin := new BN(0)`, `quoteAmountMin := new BN(0)`. -/
def buildRemoveLiquidityParams (position : LiquidityPosition) : RemoveLiquidityParams :=
  { lpAmount := ⌊position.lpTokenBalance * 10 ^ 6⌋,
    baseAmountMin := 0,
    quoteAmountMin := 0 }

/-- Model of `withdrawLiquidity` from raydium.service.ts (SDK version), up to the
external SDK call: no position is the early failure, otherwise the
remove-liquidity operation is built from the position. -/
def withdrawLiquidity (position : Option LiquidityPosition) :
    Except String RemoveLiquidityParams :=
  match position with
  | none => .error "No liquidity position found"
  | some p => .ok (buildRemoveLiquidityParams p)

/-! ### Spec-side predicates and concrete environments -/

/-- Spec-side reading of §4.4: the simulation RPC resolved and reported
no execution error. Compared against what `simulateTransaction` returns. -/
def simulationReportsOk (rpc : SimBehavior) : Bool :=
  match rpc with
  | .ret none _ _ => true
  | _ => false

/-- Spec-side reading of the confirmation report: the signature status
carries `confirmationStatus` of `confirmed` or `finalized`. Compared
against the `confirmed` flag `getTransactionStatus` returns. -/
def statusReportsConfirmed (rpc : StatusBehavior) : Bool :=
  match rpc with
  | .ret (some v) =>
    v.confirmationStatus = some "confirmed" || v.confirmationStatus = some "finalized"
  | _ => false

/-- An oracle under which every attempt simulates cleanly, submits
successfully, and then the network reports the transaction landed but
failed (`confirmation.value.err` set). -/
def landedFailedOracle : Nat → AttemptEnv := fun _ =>
  { sim := .ret none [] (some 150000),
    send := .ret "5vSig11111",
    confirm := .ret (some { detail := "InstructionError" }) }

/-- An oracle under which every attempt simulates cleanly, submits
successfully, and confirmation then raises a blockhash-expiry rejection
(the EXPIRED outcome of the spec). -/
def expiredOracle : Nat → AttemptEnv := fun _ =>
  { sim := .ret none [] (some 150000),
    send := .ret "5vSig11111",
    confirm := .raise "TransactionExpiredBlockheightExceededError" }

/-! ### Helper lemmas -/

/-- An attempt whose simulation passes, whose send returns a signature,
and whose confirmation comes back `false` performs a submission and ends
in the timeout error thrown on line 802. -/
theorem attemptOnce_confirm_false (options : TxSendOptions) (envA : AttemptEnv)
    (sig : String)
    (hpre : options.skipPreflight = false)
    (hskip : options.skipConfirmation = false)
    (hsim : (simulateTransaction envA.sim).success = true)
    (hsend : envA.send = .ret sig)
    (hc : confirmTransaction envA.confirm = false) :
    attemptOnce options envA =
      { sent := true, result := .error "Transaction failed to confirm within timeout" } := by
  simp [attemptOnce, hpre, hskip, hsim, hsend, hc]

/-- When every remaining attempt fails, the retry loop consumes the whole
list, counts one attempt per entry and one send per attempt that
submitted, and returns a failure. -/
theorem runAttempts_allFail (options : TxSendOptions) (maxRetries : Nat)
    (envs : List AttemptEnv)
    (h : ∀ envA ∈ envs, ∀ sig, (attemptOnce options envA).result ≠ .ok sig) :
    ∀ (attemptsDone sends : Nat) (lastError : Option String),
      (runAttempts options maxRetries envs attemptsDone sends lastError).success = false ∧
      (runAttempts options maxRetries envs attemptsDone sends lastError).attemptsUsed =
        attemptsDone + envs.length ∧
      (runAttempts options maxRetries envs attemptsDone sends lastError).sends =
        sends + envs.countP (fun envA => (attemptOnce options envA).sent) := by
  induction envs with
  | nil =>
    intro a s e0
    simp [runAttempts]
  | cons envA rest ih =>
    intro a s e0
    have hhd := h envA (List.mem_cons_self _ _)
    have htl : ∀ e ∈ rest, ∀ sig, (attemptOnce options e).result ≠ .ok sig :=
      fun e he => h e (List.mem_cons_of_mem _ he)
    cases hres : (attemptOnce options envA).result with
    | ok sig => exact absurd hres (hhd sig)
    | error msg =>
      obtain ⟨h1, h2, h3⟩ :=
        ih htl (a + 1) (s + if (attemptOnce options envA).sent then 1 else 0) (some msg)
      refine ⟨?_, ?_, ?_⟩ <;>
        simp only [runAttempts, hres, h1, h2, h3, List.length_cons, List.countP_cons] <;>
        omega

/-! ### Claim theorems -/

/-- C1 counterexample: with `maxRetries = 2` and the network reporting
landed-but-failed (`confirmation.value.err` set) on every attempt,
`sendAndConfirmTransaction` submits the prepared transaction twice —
`confirmTransaction` collapses a landed execution error into the same
`false` as a timeout, so the loop resubmits. The claim's bound of at most
one submission per run is violated. -/
theorem landedFailed_resubmitted_counterexample :
    (landedFailedOracle 1).confirm = ConfirmBehavior.ret (some { detail := "InstructionError" }) ∧
    (sendAndConfirmTransaction landedFailedOracle
      { skipPreflight := false, maxRetries := some 2, skipConfirmation := false }).sends = 2 ∧
    ¬ ((sendAndConfirmTransaction landedFailedOracle
      { skipPreflight := false, maxRetries := some 2, skipConfirmation := false }).sends ≤ 1) := by
  refine ⟨rfl, ?_, ?_⟩ <;> decide

/-- C1 amended: a landed-but-failed confirmation is not terminal at the
confirmation layer — it is treated exactly like a timeout, and the engine
resubmits on every remaining attempt, so a run whose every confirmation
reports landed-but-failed performs `maxRetries` submissions of the same
prepared transaction (one per attempt) and returns a failed outcome. -/
theorem landedFailed_resubmission_each_attempt (m : Nat) (oracle : Nat → AttemptEnv)
    (hm : 0 < m)
    (hsim : ∀ i, (simulateTransaction (oracle i).sim).success = true)
    (hsend : ∀ i, ∃ sig, (oracle i).send = SendBehavior.ret sig)
    (hconf : ∀ i, ∃ e, (oracle i).confirm = ConfirmBehavior.ret (some e)) :
    (sendAndConfirmTransaction oracle
      { skipPreflight := false, maxRetries := some m, skipConfirmation := false }).success
        = false ∧
    (sendAndConfirmTransaction oracle
      { skipPreflight := false, maxRetries := some m, skipConfirmation := false }).sends = m ∧
    (sendAndConfirmTransaction oracle
      { skipPreflight := false, maxRetries := some m, skipConfirmation := false }).attemptsUsed
        = m := by
  have hmr : effectiveMaxRetries
      { skipPreflight := false, maxRetries := some m, skipConfirmation := false } = m := by
    simp [effectiveMaxRetries, Nat.pos_iff_ne_zero.mp hm]
  have hall : ∀ e ∈ (List.range m).map (fun k => oracle (k + 1)),
      attemptOnce { skipPreflight := false, maxRetries := some m, skipConfirmation := false } e
        = { sent := true, result := .error "Transaction failed to confirm within timeout" } := by
    intro e he
    obtain ⟨k, _, rfl⟩ := List.mem_map.mp he
    obtain ⟨sig, hs⟩ := hsend (k + 1)
    obtain ⟨te, hc⟩ := hconf (k + 1)
    exact attemptOnce_confirm_false _ _ sig rfl rfl (hsim (k + 1)) hs
      (by simp [confirmTransaction, hc])
  have hfail : ∀ e ∈ (List.range m).map (fun k => oracle (k + 1)), ∀ sig,
      (attemptOnce { skipPreflight := false, maxRetries := some m, skipConfirmation := false }
        e).result ≠ .ok sig := by
    intro e he sig
    rw [hall e he]
    simp
  have hsent : ((List.range m).map (fun k => oracle (k + 1))).countP
      (fun e => (attemptOnce
        { skipPreflight := false, maxRetries := some m, skipConfirmation := false } e).sent)
      = ((List.range m).map (fun k => oracle (k + 1))).length := by
    rw [List.countP_eq_length]
    intro e he
    rw [hall e he]
  obtain ⟨h1, h2, h3⟩ := runAttempts_allFail
    { skipPreflight := false, maxRetries := some m, skipConfirmation := false }
    m ((List.range m).map (fun k => oracle (k + 1))) hfail 0 0 none
  simp only [sendAndConfirmTransaction, hmr]
  refine ⟨h1, ?_, ?_⟩
  · rw [h3, hsent]
    simp
  · rw [h2]
    simp

/-- C1 witness: the amended statement at `m = 2` with the concrete
landed-but-failed oracle. -/
theorem landedFailed_resubmission_witness :
    (sendAndConfirmTransaction landedFailedOracle
      { skipPreflight := false, maxRetries := some 2, skipConfirmation := false }).success
        = false ∧
    (sendAndConfirmTransaction landedFailedOracle
      { skipPreflight := false, maxRetries := some 2, skipConfirmation := false }).sends = 2 ∧
    (sendAndConfirmTransaction landedFailedOracle
      { skipPreflight := false, maxRetries := some 2, skipConfirmation := false }).attemptsUsed
        = 2 :=
  landedFailed_resubmission_each_attempt 2 landedFailedOracle (by decide)
    (fun _ => rfl) (fun _ => ⟨"5vSig11111", rfl⟩)
    (fun _ => ⟨{ detail := "InstructionError" }, rfl⟩)

/-- C2 counterexample: with `maxRetries = 2` and confirmation expiring on
every attempt, the run performs exactly 2 attempts, not the 3 the claim
requires — the loop header is `attempt = 1; attempt <= maxRetries`, so
there are `maxRetries` tries, not `maxRetries + 1`. -/
theorem attemptCount_counterexample :
    (sendAndConfirmTransaction expiredOracle
      { skipPreflight := false, maxRetries := some 2, skipConfirmation := false }).attemptsUsed
        = 2 ∧
    (sendAndConfirmTransaction expiredOracle
      { skipPreflight := false, maxRetries := some 2, skipConfirmation := false }).attemptsUsed
        ≠ 3 ∧
    (sendAndConfirmTransaction expiredOracle
      { skipPreflight := false, maxRetries := some 2, skipConfirmation := false }).success
        = false := by
  refine ⟨?_, ?_, ?_⟩ <;> decide

/-- C2 amended: attempts are numbered `i = 1 .. maxRetries` (`maxRetries`
total tries); when confirmation raises an expiry on every attempt the run
performs exactly `maxRetries` attempts and returns a failed outcome — in
particular 2 attempts when `maxRetries = 2`. -/
theorem attemptCount_eq_maxRetries (m : Nat) (oracle : Nat → AttemptEnv)
    (hm : 0 < m)
    (hsim : ∀ i, (simulateTransaction (oracle i).sim).success = true)
    (hsend : ∀ i, ∃ sig, (oracle i).send = SendBehavior.ret sig)
    (hconf : ∀ i, ∃ e, (oracle i).confirm = ConfirmBehavior.raise e) :
    (sendAndConfirmTransaction oracle
      { skipPreflight := false, maxRetries := some m, skipConfirmation := false }).attemptsUsed
        = m ∧
    (sendAndConfirmTransaction oracle
      { skipPreflight := false, maxRetries := some m, skipConfirmation := false }).success
        = false := by
  have hmr : effectiveMaxRetries
      { skipPreflight := false, maxRetries := some m, skipConfirmation := false } = m := by
    simp [effectiveMaxRetries, Nat.pos_iff_ne_zero.mp hm]
  have hfail : ∀ e ∈ (List.range m).map (fun k => oracle (k + 1)), ∀ sig,
      (attemptOnce { skipPreflight := false, maxRetries := some m, skipConfirmation := false }
        e).result ≠ .ok sig := by
    intro e he sig
    obtain ⟨k, _, rfl⟩ := List.mem_map.mp he
    obtain ⟨s, hs⟩ := hsend (k + 1)
    obtain ⟨err, hc⟩ := hconf (k + 1)
    rw [attemptOnce_confirm_false _ _ s rfl rfl (hsim (k + 1)) hs
      (by simp [confirmTransaction, hc])]
    simp
  obtain ⟨h1, h2, _⟩ := runAttempts_allFail
    { skipPreflight := false, maxRetries := some m, skipConfirmation := false }
    m ((List.range m).map (fun k => oracle (k + 1))) hfail 0 0 none
  simp only [sendAndConfirmTransaction, hmr]
  refine ⟨?_, h1⟩
  rw [h2]
  simp

/-- C2 witness: the amended statement at `m = 2` with the concrete
always-expired oracle. -/
theorem attemptCount_eq_maxRetries_witness :
    (sendAndConfirmTransaction expiredOracle
      { skipPreflight := false, maxRetries := some 2, skipConfirmation := false }).attemptsUsed
        = 2 ∧
    (sendAndConfirmTransaction expiredOracle
      { skipPreflight := false, maxRetries := some 2, skipConfirmation := false }).success
        = false :=
  attemptCount_eq_maxRetries 2 expiredOracle (by decide)
    (fun _ => rfl) (fun _ => ⟨"5vSig11111", rfl⟩)
    (fun _ => ⟨"TransactionExpiredBlockheightExceededError", rfl⟩)

/-- C3: `handleError` is a total function over every raw input shape
(string, `Error`, structured object, null), always attaches the extracted
message as `technicalDetails`, and maps any message that matches no
recognized pattern (category `UNKNOWN`) to the default
`UNKNOWN`/`LOW`/`retryable = true` classification. -/
theorem handleError_unknown_default (e : RawError)
    (h : categorizeError (extractErrorMessage e) = ErrorCategory.UNKNOWN) :
    (handleError e).technicalDetails = some (extractErrorMessage e) ∧
    handleError e =
      { category := .UNKNOWN, severity := .LOW,
        message := "An unexpected error occurred",
        suggestion := "Enable verbose logging (--verbose) for more details or contact support",
        retryable := true, technicalDetails := some (extractErrorMessage e) } := by
  refine ⟨?_, ?_⟩ <;> simp only [handleError, h, getErrorInfo]

/-- C3 witness: the unrecognized string `"zzz"` classifies to the
default. -/
theorem handleError_unknown_default_witness :
    categorizeError (extractErrorMessage (RawError.str "zzz")) = ErrorCategory.UNKNOWN ∧
    handleError (RawError.str "zzz") =
      { category := .UNKNOWN, severity := .LOW,
        message := "An unexpected error occurred",
        suggestion := "Enable verbose logging (--verbose) for more details or contact support",
        retryable := true, technicalDetails := some "zzz" } :=
  ⟨by decide, (handleError_unknown_default (RawError.str "zzz") (by decide)).2⟩

/-- C4 counterexample: the raw message `"keypair"` classifies to category
`WALLET` (the spec's ACCOUNT) with severity `LOW` — not `CRITICAL`, and
not one of `CONFIGURATION`/`VALIDATION` — yet `retryable` is `false`,
contradicting the claim that every category outside
CONFIGURATION/INPUT is retryable unless severity is CRITICAL. -/
theorem wallet_nonretryable_counterexample :
    (handleError (RawError.str "keypair")).category = ErrorCategory.WALLET ∧
    (handleError (RawError.str "keypair")).severity = ErrorSeverity.LOW ∧
    (handleError (RawError.str "keypair")).severity ≠ ErrorSeverity.CRITICAL ∧
    (handleError (RawError.str "keypair")).retryable = false := by
  refine ⟨?_, ?_, ?_, ?_⟩ <;> decide

/-- Helper: `getErrorInfo` always echoes the category it was given. -/
theorem getErrorInfo_category (cat : ErrorCategory) (msg : String) :
    (getErrorInfo cat msg).category = cat := by
  cases cat <;> simp only [getErrorInfo] <;> first
    | rfl
    | (split <;> rfl)

/-- Helper: the `retryable` flag produced by `getErrorInfo` depends on
the category alone — `false` exactly for `WALLET`, `VALIDATION` and
`CONFIGURATION`, `true` for every other category, whatever the message
and severity. -/
theorem getErrorInfo_retryable (cat : ErrorCategory) (msg : String) :
    (getErrorInfo cat msg).retryable =
      !(cat == ErrorCategory.WALLET || cat == ErrorCategory.VALIDATION ||
        cat == ErrorCategory.CONFIGURATION) := by
  cases cat <;> simp only [getErrorInfo] <;> first
    | rfl
    | (split <;> rfl)

/-- C4 amended: retryability is determined by the category alone —
classified errors of category `WALLET` (the spec's ACCOUNT),
`VALIDATION` (the spec's INPUT) and `CONFIGURATION` are non-retryable,
and every other category is retryable regardless of severity (even
`CRITICAL`). -/
theorem retryable_determined_by_category (e : RawError) :
    (handleError e).retryable =
      !((handleError e).category == ErrorCategory.WALLET ||
        (handleError e).category == ErrorCategory.VALIDATION ||
        (handleError e).category == ErrorCategory.CONFIGURATION) := by
  simp only [handleError]
  rw [getErrorInfo_retryable, getErrorInfo_category]

/-- C5 counterexample: at `attempt = 6`, `base = 1000`, `jitter = 0`
(a legal jitter draw), the delay is the 30000 cap, which lies below the
claimed interval `[base * 2^(attempt-1), base * 2^(attempt-1) + 1000] =
[32000, 33000]` — the claimed lower bound fails once the exponential term
crosses the cap. -/
theorem retryDelay_interval_counterexample :
    (0 : ℚ) ≤ 0 ∧ (0 : ℚ) < 1000 ∧
    calculateRetryDelay 6 1000 0 = 30000 ∧
    ¬ ((1000 : ℚ) * 2 ^ (6 - 1) ≤ calculateRetryDelay 6 1000 0) := by
  refine ⟨le_refl _, by norm_num, ?_, ?_⟩ <;>
    · simp only [calculateRetryDelay]
      norm_num

/-- C5 amended: the delay is `min(base * 2^(attempt-1) + jitter, 30000)`
with the jitter drawn from `[0, 1000)` milliseconds, so it never exceeds
the 30000 ms cap and never exceeds `base * 2^(attempt-1) + 1000`; the
claimed lower bound `base * 2^(attempt-1) ≤ delay` holds exactly when the
exponential term itself is at most the cap. -/
theorem retryDelay_bounds (attempt : Nat) (baseDelay jitter : ℚ)
    (ha : 1 ≤ attempt) (hj0 : 0 ≤ jitter) (hj1 : jitter < 1000) :
    calculateRetryDelay attempt baseDelay jitter ≤ 30000 ∧
    calculateRetryDelay attempt baseDelay jitter ≤ baseDelay * 2 ^ (attempt - 1) + 1000 ∧
    (baseDelay * 2 ^ (attempt - 1) ≤ 30000 →
      baseDelay * 2 ^ (attempt - 1) ≤ calculateRetryDelay attempt baseDelay jitter) := by
  simp only [calculateRetryDelay]
  refine ⟨min_le_right _ _, ?_, ?_⟩
  · exact le_trans (min_le_left _ _) (by linarith)
  · intro h
    exact le_min (by linarith) h

/-- C5 witness: the amended bounds at `attempt = 1`, `base = 500`,
`jitter = 0`. -/
theorem retryDelay_bounds_witness :
    (1 ≤ 1 ∧ (0 : ℚ) ≤ 0 ∧ (0 : ℚ) < 1000) ∧
    (calculateRetryDelay 1 500 0 ≤ 30000 ∧
     calculateRetryDelay 1 500 0 ≤ 500 * 2 ^ (1 - 1) + 1000 ∧
     ((500 : ℚ) * 2 ^ (1 - 1) ≤ 30000 →
       (500 : ℚ) * 2 ^ (1 - 1) ≤ calculateRetryDelay 1 500 0)) :=
  ⟨⟨le_refl _, le_refl _, by norm_num⟩,
    retryDelay_bounds 1 500 0 (le_refl _) (le_refl _) (by norm_num)⟩

/-- C6 counterexample: a cached entry exactly `ttl` old
(`now - fetchedAt = 30000 = CACHE_DURATION_MS`, so `now - fetchedAt ≤ ttl`
holds) is not served from the cache — the code's check on line 62 is the
strict `now - timestamp < CACHE_DURATION_MS`, so the loader runs. -/
theorem cacheTtl_boundary_counterexample :
    ({ data := some samplePoolInfo, timestamp := 0 } : PoolDataCache).data.isSome = true ∧
    (30000 : ℤ) - ({ data := some samplePoolInfo, timestamp := 0 } : PoolDataCache).timestamp
      ≤ CACHE_DURATION_MS ∧
    (getPoolInfo { data := some samplePoolInfo, timestamp := 0 } 30000
      (.ok samplePoolInfo)).loaderInvoked = true :=
  ⟨rfl, by decide, rfl⟩

/-- C6 amended: a cached entry is returned without invoking the loader
when it exists and is strictly younger than the TTL
(`now - fetchedAt < ttl`); the call then leaves the cache unchanged. -/
theorem cacheHit_under_strict_ttl (cache : PoolDataCache) (now : ℤ)
    (fetch : Except String PoolInfo) (d : PoolInfo)
    (hdata : cache.data = some d)
    (httl : now - cache.timestamp < CACHE_DURATION_MS) :
    getPoolInfo cache now fetch =
      { result := .ok d, cache := cache, loaderInvoked := false } := by
  unfold getPoolInfo
  rw [hdata]
  simp [httl]

/-- C6 witness: a 29999 ms old entry is served from the cache even while
the loader would fail. -/
theorem cacheHit_under_strict_ttl_witness :
    ({ data := some samplePoolInfo, timestamp := 0 } : PoolDataCache).data
      = some samplePoolInfo ∧
    (29999 : ℤ) - ({ data := some samplePoolInfo, timestamp := 0 } : PoolDataCache).timestamp
      < CACHE_DURATION_MS ∧
    getPoolInfo { data := some samplePoolInfo, timestamp := 0 } 29999 (.error "rpc down") =
      { result := .ok samplePoolInfo,
        cache := { data := some samplePoolInfo, timestamp := 0 },
        loaderInvoked := false } :=
  ⟨rfl, by decide,
    cacheHit_under_strict_ttl { data := some samplePoolInfo, timestamp := 0 } 29999
      (.error "rpc down") samplePoolInfo rfl (by decide)⟩

/-- C7 counterexample: two concurrent `getPoolInfo` callers on an empty
cache, interleaved as check-A, check-B, store-A, store-B (caller B checks
while caller A's load is in flight), invoke the loader twice — there is
no single-flight guard, so the claim's bound of at most one in-flight
load per key fails. -/
theorem singleFlight_counterexample :
    (concRun 1000 samplePoolInfo [CallerId.A, CallerId.B, CallerId.A, CallerId.B]
      concInit).loaderCalls = 2 ∧
    ¬ ((concRun 1000 samplePoolInfo [CallerId.A, CallerId.B, CallerId.A, CallerId.B]
      concInit).loaderCalls ≤ 1) := by
  refine ⟨?_, ?_⟩ <;> decide

/-- C7 amended: the code has no single-flight protection — any caller
whose cache check observes no entry starts its own load and bumps the
loader count, regardless of whether another caller's load is already in
flight; concurrent callers that all check before the first store each
trigger a duplicate load. -/
theorem cacheMiss_invokes_loader (now : ℤ) (v : PoolInfo) (s : ConcurrentState)
    (c : CallerId)
    (hphase : s.phase c = CallerPhase.start)
    (hmiss : s.cache.data = none) :
    (concStep now v s c).loaderCalls = s.loaderCalls + 1 := by
  unfold concStep
  rw [hphase, hmiss]

/-- C7 witness: caller B misses while caller A's load is still in flight,
and the loader count still increments from 1 to 2. -/
theorem cacheMiss_invokes_loader_witness :
    ({ cache := { data := none, timestamp := 0 }, phaseA := .loading, phaseB := .start,
        loaderCalls := 1 } : ConcurrentState).phase CallerId.B = CallerPhase.start ∧
    ({ cache := { data := none, timestamp := 0 }, phaseA := .loading, phaseB := .start,
        loaderCalls := 1 } : ConcurrentState).phaseA = CallerPhase.loading ∧
    (concStep 1000 samplePoolInfo
      { cache := { data := none, timestamp := 0 }, phaseA := .loading, phaseB := .start,
        loaderCalls := 1 } CallerId.B).loaderCalls = 2 :=
  ⟨rfl, rfl,
    cacheMiss_invokes_loader 1000 samplePoolInfo
      { cache := { data := none, timestamp := 0 }, phaseA := .loading, phaseB := .start,
        loaderCalls := 1 } CallerId.B rfl rfl⟩

/-- C8: `simulateTransaction` is total over every RPC behavior including
a raised transport error — it returns `success = true` exactly when the
simulation resolved with no reported error, and every failure result
carries an error message rather than propagating an exception. -/
theorem simulateTransaction_total_reports (rpc : SimBehavior) :
    (simulateTransaction rpc).success = simulationReportsOk rpc ∧
    ((simulateTransaction rpc).error.isSome || (simulateTransaction rpc).success) = true := by
  cases rpc with
  | raise e => exact ⟨rfl, rfl⟩
  | ret err logs units => cases err <;> exact ⟨rfl, rfl⟩

/-- C9: the withdrawal flow always passes `baseAmountMin = 0` and
`quoteAmountMin = 0` to the remove-liquidity operation — no slippage
floor is applied on that path, for every position. -/
theorem withdraw_minimum_amounts_zero (position : LiquidityPosition) :
    (buildRemoveLiquidityParams position).baseAmountMin = 0 ∧
    (buildRemoveLiquidityParams position).quoteAmountMin = 0 ∧
    withdrawLiquidity (some position) = .ok (buildRemoveLiquidityParams position) :=
  ⟨rfl, rfl, rfl⟩

/-- C10: `getTransactionStatus` is total over every RPC behavior: the
returned `confirmed` flag is set exactly when the reported
`confirmationStatus` is `confirmed` or `finalized`, and a raised RPC
error (or a missing status value) yields the all-default
`confirmed = false` record. -/
theorem getTransactionStatus_total (rpc : StatusBehavior) (e : String) :
    (getTransactionStatus rpc).confirmed = statusReportsConfirmed rpc ∧
    getTransactionStatus (.raise e) =
      { confirmed := false, slot := none, err := none, confirmations := none } := by
  refine ⟨?_, rfl⟩
  cases rpc with
  | raise msg => rfl
  | ret v => cases v <;> rfl

end RayTracer
